import Mathlib

/-!
Shallow embedding of salus `src/vm_cpu.rs`: the vCPU register-state frame,
the vCPU engine (`VmCpu::new`, `set_interrupt_file`, the exit classification
of `run_to_exit`) and the vCPU table (`VmCpus::new`, `add_vcpu`, `get_vcpu`,
`take_vcpu`, and the `Drop` impl of `RunningVmCpu`).

Machine integers are embedded as `Nat` with explicit `% 2 ^ 64` where the
Rust `u64` semantics can wrap.  External crates of the same repository
(riscv-regs, drivers, sbi, riscv-pages) are not under `src/`; the pieces of
them this module depends on are modelled from the spec, each marked
`Modelled from the spec:` in its doc comment.
-/

namespace Salus

/-- Error enum of vm_cpu.rs (lines 22-29). -/
inductive Error
  | BadCpuId
  | VmCpuExists
  | VmCpuNotFound
  | VmCpuRunning
  | InsufficientVmCpuStorage
deriving DecidableEq, Repr

/-- Modelled from the spec: `MAX_CPUS` comes from the drivers crate (not under
src/).  Every claim is symbolic in its value; 128 is used so the definitions
remain executable. -/
def MAX_CPUS : Nat := 128

/-- Modelled from the spec: a page owner identifier is an opaque id from the
riscv-pages crate (not under src/). -/
def PageOwnerId := Nat

instance : DecidableEq PageOwnerId := fun a b => Nat.decEq a b

instance : OfNat PageOwnerId n := ⟨(n : Nat)⟩

/-- The 32-entry general purpose register file (riscv-regs
`GeneralPurposeRegisters`), one machine word per register. -/
def GeneralPurposeRegisters := Fin 32 → Nat

/-- The all-zero register file (the `Default` value). -/
def GeneralPurposeRegisters.zero : GeneralPurposeRegisters := fun _ => 0

/-- Host GPR and CSR state saved/restored around virtualization
(vm_cpu.rs lines 39-48). -/
structure HostCpuState where
  gprs : GeneralPurposeRegisters
  sstatus : Nat
  hstatus : Nat
  scounteren : Nat
  stvec : Nat
  sscratch : Nat

/-- The `Default` (all-zero) host state. -/
def HostCpuState.zero : HostCpuState :=
  ⟨GeneralPurposeRegisters.zero, 0, 0, 0, 0, 0⟩

/-- Guest GPR and CSR state saved/restored around virtualization
(vm_cpu.rs lines 51-59). -/
structure GuestCpuState where
  gprs : GeneralPurposeRegisters
  sstatus : Nat
  hstatus : Nat
  scounteren : Nat
  sepc : Nat

/-- The `Default` (all-zero) guest state. -/
def GuestCpuState.zero : GuestCpuState :=
  ⟨GeneralPurposeRegisters.zero, 0, 0, 0, 0⟩

/-- CSRs in effect only when V=1, switched between VMs
(vm_cpu.rs lines 63-77). -/
structure GuestVCpuState where
  hgatp : Nat
  htimedelta : Nat
  vsstatus : Nat
  vsie : Nat
  vstvec : Nat
  vsscratch : Nat
  vsepc : Nat
  vscause : Nat
  vstval : Nat
  vsatp : Nat
  vstimecmp : Nat
deriving DecidableEq

/-- The `Default` (all-zero) V=1 CSR state. -/
def GuestVCpuState.zero : GuestVCpuState :=
  ⟨0, 0, 0, 0, 0, 0, 0, 0, 0, 0, 0⟩

/-- Trap-cause CSRs snapshotted by the host right after a guest exit
(vm_cpu.rs lines 81-88). -/
structure VmCpuTrapState where
  scause : Nat
  stval : Nat
  htval : Nat
  htinst : Nat
deriving DecidableEq

/-- The `Default` (all-zero) trap snapshot. -/
def VmCpuTrapState.zero : VmCpuTrapState := ⟨0, 0, 0, 0⟩

/-- The register-state frame: the four sub-records in their declared order
(vm_cpu.rs lines 92-99). -/
structure VmCpuState where
  host_regs : HostCpuState
  guest_regs : GuestCpuState
  guest_vcpu_csrs : GuestVCpuState
  trap_csrs : VmCpuTrapState

/-- The `Default` (all-zero) frame. -/
def VmCpuState.zero : VmCpuState :=
  ⟨HostCpuState.zero, GuestCpuState.zero, GuestVCpuState.zero, VmCpuTrapState.zero⟩

/-- Modelled from the spec: the interrupt-file identifier handed out by the
IMSIC allocator (drivers crate, not under src/) is opaque here and exposes a
raw_index accessor whose value is placed in the VGEIN field of hstatus.
VGEIN is a six-bit field, so valid identifiers have raw_index below 64. -/
structure ImsicGuestId where
  raw_index : Nat
deriving DecidableEq

/-- Modelled from the spec: the decoded SBI message (sbi crate, not under
src/) is opaque to this module; only its presence or absence matters. -/
structure SbiMessage where
  raw : Nat
deriving DecidableEq

/-- Modelled from the spec: the external SBI decoder takes the guest GPRs
A0..A7 and may fail and return nothing; it never raises.  run_to_exit is
proved for every such decoder. -/
def SbiDecoder := GeneralPurposeRegisters → Option SbiMessage

/-- A guest physical address: a raw address tagged with its owner id
(riscv-pages `RawAddr::guest`). -/
structure GuestPhysAddr where
  bits : Nat
  owner : PageOwnerId
deriving DecidableEq

/-- riscv-pages `RawAddr::guest` constructor. -/
def RawAddr.guest (bits : Nat) (owner : PageOwnerId) : GuestPhysAddr := ⟨bits, owner⟩

/-- Exit causes of a vCPU run (vm_cpu.rs lines 200-208). -/
inductive VmCpuExit
  | Ecall (msg : Option SbiMessage)
  | PageFault (addr : GuestPhysAddr)
  | Other (trap : VmCpuTrapState)
deriving DecidableEq

/-- Read the `width`-bit field at bit offset `off` of `x`
(tock-registers field read). -/
def getBits (x off width : Nat) : Nat := x / 2 ^ off % 2 ^ width

/-- Write the `width`-bit field at bit offset `off` of `x` to `v`
(tock-registers `modify`); the value is masked to the field width, bits
outside the field keep their value. -/
def setBits (x off width v : Nat) : Nat :=
  x % 2 ^ off + v % 2 ^ width * 2 ^ off + x / 2 ^ (off + width) * 2 ^ (off + width)

/-- Modelled from the spec: hstatus.SPV bit position (riscv-regs register
definition per the RISC-V privileged architecture). -/
def HSTATUS_SPV_SHIFT : Nat := 7

/-- Modelled from the spec: hstatus.SPVP bit position. -/
def HSTATUS_SPVP_SHIFT : Nat := 8

/-- Modelled from the spec: hstatus.VGEIN field position. -/
def HSTATUS_VGEIN_SHIFT : Nat := 12

/-- Modelled from the spec: hstatus.VGEIN field width (six bits). -/
def HSTATUS_VGEIN_WIDTH : Nat := 6

/-- Modelled from the spec: sstatus.SPIE bit position. -/
def SSTATUS_SPIE_SHIFT : Nat := 5

/-- Modelled from the spec: sstatus.SPP bit position. -/
def SSTATUS_SPP_SHIFT : Nat := 8

/-- Modelled from the spec: the Supervisor encoding of the previous-privilege
fields (SPVP, SPP). -/
def PRIV_SUPERVISOR : Nat := 1

/-- Modelled from the spec: scounteren.CY bit position. -/
def SCOUNTEREN_CYCLE_SHIFT : Nat := 0

/-- Modelled from the spec: scounteren.TM bit position. -/
def SCOUNTEREN_TIME_SHIFT : Nat := 1

/-- Modelled from the spec: scounteren.IR bit position. -/
def SCOUNTEREN_INSTRET_SHIFT : Nat := 2

/-- A single virtual CPU (vm_cpu.rs lines 211-215). -/
structure VmCpu where
  state : VmCpuState
  interrupt_file : Option ImsicGuestId
  guest_id : PageOwnerId

/-- VmCpu::new (vm_cpu.rs lines 219-243): a zeroed frame, then guest hstatus
gets SPV=1 and SPVP=Supervisor, guest sstatus gets SPIE=1 and SPP=Supervisor,
and guest scounteren delegates the cycle, time and instret counters. -/
def VmCpu.new (guest_id : PageOwnerId) : VmCpu :=
  let state := VmCpuState.zero
  let hstatus := setBits (setBits 0 HSTATUS_SPV_SHIFT 1 1) HSTATUS_SPVP_SHIFT 1 PRIV_SUPERVISOR
  let state := { state with guest_regs.hstatus := hstatus }
  let sstatus := setBits (setBits 0 SSTATUS_SPIE_SHIFT 1 1) SSTATUS_SPP_SHIFT 1 PRIV_SUPERVISOR
  let state := { state with guest_regs.sstatus := sstatus }
  let scounteren :=
    setBits (setBits (setBits 0 SCOUNTEREN_CYCLE_SHIFT 1 1) SCOUNTEREN_TIME_SHIFT 1 1)
      SCOUNTEREN_INSTRET_SHIFT 1 1
  let state := { state with guest_regs.scounteren := scounteren }
  { state := state, interrupt_file := none, guest_id := guest_id }

/-- VmCpu::set_interrupt_file (vm_cpu.rs lines 276-284): store the binding and
patch the VGEIN field of guest hstatus with the file's raw index. -/
def VmCpu.set_interrupt_file (c : VmCpu) (interrupt_file : ImsicGuestId) : VmCpu :=
  let c := { c with interrupt_file := some interrupt_file }
  { c with state.guest_regs.hstatus := (setBits c.state.guest_regs.hstatus
      HSTATUS_VGEIN_SHIFT HSTATUS_VGEIN_WIDTH interrupt_file.raw_index) }

/-- The trap exception causes run_to_exit distinguishes, with a catch-all for
every other exception code. -/
inductive Exception
  | VirtualSupervisorEnvCall
  | GuestInstructionPageFault
  | GuestLoadPageFault
  | GuestStorePageFault
  | Other (code : Nat)
deriving DecidableEq

/-- A decoded scause: an interrupt or an exception. -/
inductive Trap
  | Exception (e : Salus.Exception)
  | Interrupt (code : Nat)
deriving DecidableEq

/-- Modelled from the spec: `Trap::from_scause` of the riscv-regs crate (not
under src/).  Bit 63 of scause distinguishes interrupts from exceptions; the
exception codes follow the RISC-V privileged architecture (virtual-supervisor
ECALL = 10, fixed by spec scenario S4; guest instruction/load/store page
fault = 20/21/23).  Unrecognized causes decode to a catch-all variant rather
than to `none`: the spec states that unknown trap causes surface as `Other`
and are never elevated to a panic, so the decoder is total on every scause
value. -/
def Trap.from_scause (scause : Nat) : Option Trap :=
  let code := scause % 2 ^ 63
  if scause / 2 ^ 63 % 2 = 1 then
    some (.Interrupt code)
  else
    some (.Exception
      (if code = 10 then .VirtualSupervisorEnvCall
       else if code = 20 then .GuestInstructionPageFault
       else if code = 21 then .GuestLoadPageFault
       else if code = 23 then .GuestStorePageFault
       else .Other code))

/-- Exit classification of VmCpu::run_to_exit (vm_cpu.rs lines 319-358).
The world switch `_run_guest` and the CSR hardware are the environment:
`trap` is the (scause, stval, htval, htinst) snapshot read back from the CSRs
after the guest trapped, and the external SBI decoder is a parameter.  The
function stores the snapshot in the frame's trap_csrs, then classifies:
virtual-supervisor ECALL decodes the GPRs, advances sepc by 4 (u64 wrapping)
and yields `Ecall`; guest page faults yield `PageFault` of
`(htval << 2) | (stval & 0x3)` (u64 semantics) tagged with the owner id;
everything else yields `Other` with the snapshot.  The `Option` result models
panic freedom: `none` is the panic of `Trap::from_scause(..).unwrap()`. -/
def VmCpu.run_to_exit (decode : SbiDecoder) (c : VmCpu) (trap : VmCpuTrapState) :
    Option (VmCpuExit × VmCpu) :=
  let c := { c with state.trap_csrs := trap }
  match Trap.from_scause c.state.trap_csrs.scause with
  | none => none
  | some (.Exception .VirtualSupervisorEnvCall) =>
    let sbi_msg := decode c.state.guest_regs.gprs
    let c := { c with state.guest_regs.sepc := (c.state.guest_regs.sepc + 4) % 2 ^ 64 }
    some (.Ecall sbi_msg, c)
  | some (.Exception .GuestInstructionPageFault)
  | some (.Exception .GuestLoadPageFault)
  | some (.Exception .GuestStorePageFault) =>
    let fault_addr := RawAddr.guest
      ((c.state.trap_csrs.htval <<< 2) % 2 ^ 64 ||| (c.state.trap_csrs.stval &&& 0x03))
      c.guest_id
    some (.PageFault fault_addr, c)
  | some _ => some (.Other c.state.trap_csrs, c)

/-- vCPU status in the table (vm_cpu.rs lines 363-371). -/
inductive VmCpuStatus
  | NotPresent
  | Available
  | Running
deriving DecidableEq, Repr

/-- One slot of the table: a status and a vCPU (vm_cpu.rs lines 373-377).
The slot's RwLock/Mutex are concurrency devices; the sequential model keeps
the protected values. -/
structure VmCpusInner where
  status : VmCpuStatus
  vcpu : VmCpu

/-- An idle reference to an Available vCPU (vm_cpu.rs lines 381-392); the
model carries the referenced vCPU value. -/
structure IdleVmCpu where
  vcpu : VmCpu

/-- An exclusive reference to a Running vCPU (vm_cpu.rs lines 396-408); the
model carries the slot id used by the Drop impl. -/
structure RunningVmCpu where
  id : Nat
deriving DecidableEq

/-- The vCPU table (vm_cpu.rs lines 420-422): a PageVec of MAX_CPUS slots,
embedded as a list. -/
structure VmCpus where
  inner : List VmCpusInner

/-- The status currently stored in slot `id`. -/
def VmCpus.statusOf (vm : VmCpus) (id : Nat) : Option VmCpuStatus :=
  (vm.inner[id]?).map (fun e => e.status)

/-- Modelled from the spec: `PageSize::num_4k_pages` of riscv-pages (not
under src/), the number of 4 KiB pages needed to hold `len` bytes. -/
def PageSize.num_4k_pages (len : Nat) : Nat := (len + 4095) / 4096

/-- Modelled from the spec: the byte size of the Rust type `VmCpusInner` is a
target-layout fact not derivable in this embedding; the value follows the
declared fields with 8-byte words.  No claim depends on the numeric value,
only on the comparison inside VmCpus::new. -/
def SIZE_OF_VM_CPUS_INNER : Nat := 752

/-- Modelled from the spec: the byte size of the PageVec header
(page-collections crate, not under src/). -/
def SIZE_OF_PAGE_VEC_HEADER : Nat := 24

/-- VM_CPUS_PAGES (vm_cpu.rs lines 34-36): pages needed for MAX_CPUS slots
plus the vector header. -/
def VM_CPUS_PAGES : Nat :=
  PageSize.num_4k_pages (MAX_CPUS * SIZE_OF_VM_CPUS_INNER + SIZE_OF_PAGE_VEC_HEADER)

/-- A contiguous range of 4 KiB pages supplied by the caller (riscv-pages
`SequentialPages`); only its length matters here. -/
structure SequentialPages where
  len : Nat

/-- VmCpus::new (vm_cpu.rs lines 426-439): fail with InsufficientVmCpuStorage
when fewer than VM_CPUS_PAGES pages are supplied, else build MAX_CPUS slots,
each NotPresent and holding `VmCpu::new(guest_id)`. -/
def VmCpus.new (guest_id : PageOwnerId) (pages : SequentialPages) : Except Error VmCpus :=
  if pages.len < VM_CPUS_PAGES then
    .error .InsufficientVmCpuStorage
  else
    .ok ⟨List.replicate MAX_CPUS ⟨.NotPresent, VmCpu.new guest_id⟩⟩

/-- VmCpus::add_vcpu (vm_cpu.rs lines 442-453).  The pair's second component
is the table state after the call; error paths leave it unchanged. -/
def VmCpus.add_vcpu (vm : VmCpus) (vcpu_id : Nat) : Except Error IdleVmCpu × VmCpus :=
  match vm.inner[vcpu_id]? with
  | none => (.error .BadCpuId, vm)
  | some entry =>
    if entry.status ≠ .NotPresent then
      (.error .VmCpuExists, vm)
    else
      (.ok ⟨entry.vcpu⟩, ⟨vm.inner.set vcpu_id { entry with status := .Available }⟩)

/-- VmCpus::get_vcpu (vm_cpu.rs lines 457-468); it only reads the status, so
the table state is returned unchanged on every path. -/
def VmCpus.get_vcpu (vm : VmCpus) (vcpu_id : Nat) : Except Error IdleVmCpu × VmCpus :=
  match vm.inner[vcpu_id]? with
  | none => (.error .BadCpuId, vm)
  | some entry =>
    match entry.status with
    | .Available => (.ok ⟨entry.vcpu⟩, vm)
    | .Running => (.error .VmCpuRunning, vm)
    | .NotPresent => (.error .VmCpuNotFound, vm)

/-- VmCpus::take_vcpu (vm_cpu.rs lines 472-487). -/
def VmCpus.take_vcpu (vm : VmCpus) (vcpu_id : Nat) : Except Error RunningVmCpu × VmCpus :=
  match vm.inner[vcpu_id]? with
  | none => (.error .BadCpuId, vm)
  | some entry =>
    match entry.status with
    | .Available =>
      (.ok ⟨vcpu_id⟩, ⟨vm.inner.set vcpu_id { entry with status := .Running }⟩)
    | .Running => (.error .VmCpuRunning, vm)
    | .NotPresent => (.error .VmCpuNotFound, vm)

/-- Drop for RunningVmCpu (vm_cpu.rs lines 410-417): look the slot up
(unwrap), assert the status is Running, set it to Available.  `none` models a
panic (the unwrap of a missing slot or the failed assert). -/
def RunningVmCpu.drop (h : RunningVmCpu) (vm : VmCpus) : Option VmCpus :=
  match vm.inner[h.id]? with
  | none => none
  | some entry =>
    if entry.status = .Running then
      some ⟨vm.inner.set h.id { entry with status := .Available }⟩
    else
      none

/-! ## Theorems -/

/-- The scause decoder is total: it never returns `none`, so the unwrap in
run_to_exit cannot panic. -/
theorem Trap.from_scause_total (s : Nat) : ∃ t, Trap.from_scause s = some t := by
  unfold Trap.from_scause
  split <;> exact ⟨_, rfl⟩

/-- C1: run_to_exit never panics and returns no error: for every SBI decoder,
every vCPU and every snapshotted trap state (any scause value, recognized or
not), it produces a VmCpuExit; and any trap cause other than a
virtual-supervisor ECALL or a guest instruction/load/store page fault yields
`Other` carrying the trap-scratch snapshot. -/
theorem run_to_exit_total_and_other (decode : SbiDecoder) (c : VmCpu)
    (trap : VmCpuTrapState) :
    (∃ exit c2, VmCpu.run_to_exit decode c trap = some (exit, c2)) ∧
    (Trap.from_scause trap.scause ≠ some (.Exception .VirtualSupervisorEnvCall) →
     Trap.from_scause trap.scause ≠ some (.Exception .GuestInstructionPageFault) →
     Trap.from_scause trap.scause ≠ some (.Exception .GuestLoadPageFault) →
     Trap.from_scause trap.scause ≠ some (.Exception .GuestStorePageFault) →
     VmCpu.run_to_exit decode c trap =
       some (.Other trap, { c with state.trap_csrs := trap })) := by
  obtain ⟨t, ht⟩ := Trap.from_scause_total trap.scause
  constructor
  · unfold VmCpu.run_to_exit
    dsimp only
    rw [ht]
    rcases t with e | code
    · cases e <;> exact ⟨_, _, rfl⟩
    · exact ⟨_, _, rfl⟩
  · intro h1 h2 h3 h4
    unfold VmCpu.run_to_exit
    dsimp only
    rw [ht]
    rcases t with e | code
    · cases e
      · exact absurd ht h1
      · exact absurd ht h2
      · exact absurd ht h3
      · exact absurd ht h4
      · rfl
    · rfl

/-- C2: on a virtual-supervisor ECALL, run_to_exit returns `Ecall` of the
decoder's (possibly empty) result on the guest GPRs and unconditionally
advances guest sepc by 4 (u64 wrapping); on every other exit cause the guest
sepc is left unchanged. -/
theorem run_to_exit_ecall (decode : SbiDecoder) (c : VmCpu) (trap : VmCpuTrapState) :
    (Trap.from_scause trap.scause = some (.Exception .VirtualSupervisorEnvCall) →
      VmCpu.run_to_exit decode c trap =
        some (.Ecall (decode c.state.guest_regs.gprs),
          { c with
              state.trap_csrs := trap,
              state.guest_regs.sepc := (c.state.guest_regs.sepc + 4) % 2 ^ 64 })) ∧
    (∀ exit c2,
      Trap.from_scause trap.scause ≠ some (.Exception .VirtualSupervisorEnvCall) →
      VmCpu.run_to_exit decode c trap = some (exit, c2) →
      c2.state.guest_regs.sepc = c.state.guest_regs.sepc) := by
  constructor
  · intro ht
    unfold VmCpu.run_to_exit
    dsimp only
    rw [ht]
  · intro exit c2 hne hrun
    obtain ⟨t, ht⟩ := Trap.from_scause_total trap.scause
    unfold VmCpu.run_to_exit at hrun
    dsimp only at hrun
    rw [ht] at hrun
    rcases t with e | code
    · cases e
      · exact absurd ht hne
      all_goals (injection hrun with h; injection h with h1 h2; rw [← h2])
    · injection hrun with h
      injection h with h1 h2
      rw [← h2]

/-- C3: on a guest instruction, load or store page fault, run_to_exit returns
`PageFault` whose guest physical address is `(htval << 2) | (stval & 0x3)`
(u64 semantics) computed from the trap-scratch snapshot, tagged with the
vCPU's owner id. -/
theorem run_to_exit_page_fault (decode : SbiDecoder) (c : VmCpu)
    (trap : VmCpuTrapState) :
    (Trap.from_scause trap.scause = some (.Exception .GuestInstructionPageFault) ∨
     Trap.from_scause trap.scause = some (.Exception .GuestLoadPageFault) ∨
     Trap.from_scause trap.scause = some (.Exception .GuestStorePageFault)) →
    VmCpu.run_to_exit decode c trap =
      some (.PageFault (RawAddr.guest
          ((trap.htval <<< 2) % 2 ^ 64 ||| (trap.stval &&& 0x03)) c.guest_id),
        { c with state.trap_csrs := trap }) := by
  intro h
  unfold VmCpu.run_to_exit
  dsimp only
  rcases h with ht | ht | ht <;> rw [ht]

/-- C9: for every owner id, VmCpu::new returns a vCPU whose guest hstatus has
SPV = 1 and SPVP = Supervisor (and no other hstatus bit set), whose guest
sstatus has SPIE = 1 and SPP = Supervisor (and no other sstatus bit set),
whose guest scounteren delegates the cycle, time and instret counters (and no
other counter), and in which every other field of the register-state frame is
zero; the interrupt file is unbound and the owner id is stored. -/
theorem vmcpu_new_initial_state (owner : PageOwnerId) :
    getBits (VmCpu.new owner).state.guest_regs.hstatus HSTATUS_SPV_SHIFT 1 = 1 ∧
    getBits (VmCpu.new owner).state.guest_regs.hstatus HSTATUS_SPVP_SHIFT 1 =
      PRIV_SUPERVISOR ∧
    (VmCpu.new owner).state.guest_regs.hstatus = 0x180 ∧
    getBits (VmCpu.new owner).state.guest_regs.sstatus SSTATUS_SPIE_SHIFT 1 = 1 ∧
    getBits (VmCpu.new owner).state.guest_regs.sstatus SSTATUS_SPP_SHIFT 1 =
      PRIV_SUPERVISOR ∧
    (VmCpu.new owner).state.guest_regs.sstatus = 0x120 ∧
    getBits (VmCpu.new owner).state.guest_regs.scounteren SCOUNTEREN_CYCLE_SHIFT 1 = 1 ∧
    getBits (VmCpu.new owner).state.guest_regs.scounteren SCOUNTEREN_TIME_SHIFT 1 = 1 ∧
    getBits (VmCpu.new owner).state.guest_regs.scounteren SCOUNTEREN_INSTRET_SHIFT 1 = 1 ∧
    (VmCpu.new owner).state.guest_regs.scounteren = 0x7 ∧
    (VmCpu.new owner).state.guest_regs.gprs = GeneralPurposeRegisters.zero ∧
    (VmCpu.new owner).state.guest_regs.sepc = 0 ∧
    (VmCpu.new owner).state.host_regs = HostCpuState.zero ∧
    (VmCpu.new owner).state.guest_vcpu_csrs = GuestVCpuState.zero ∧
    (VmCpu.new owner).state.trap_csrs = VmCpuTrapState.zero ∧
    (VmCpu.new owner).interrupt_file = none ∧
    (VmCpu.new owner).guest_id = owner := by
  refine ⟨?_, ?_, rfl, ?_, ?_, rfl, ?_, ?_, ?_, rfl, rfl, rfl, rfl, rfl, rfl, rfl, rfl⟩
  · show getBits 0x180 HSTATUS_SPV_SHIFT 1 = 1
    decide
  · show getBits 0x180 HSTATUS_SPVP_SHIFT 1 = PRIV_SUPERVISOR
    decide
  · show getBits 0x120 SSTATUS_SPIE_SHIFT 1 = 1
    decide
  · show getBits 0x120 SSTATUS_SPP_SHIFT 1 = PRIV_SUPERVISOR
    decide
  · show getBits 0x7 SCOUNTEREN_CYCLE_SHIFT 1 = 1
    decide
  · show getBits 0x7 SCOUNTEREN_TIME_SHIFT 1 = 1
    decide
  · show getBits 0x7 SCOUNTEREN_INSTRET_SHIFT 1 = 1
    decide

/-- C10: set_interrupt_file stores the new binding and rewrites only the
VGEIN field (bits 12..17) of guest hstatus to the file's raw index: the
hstatus bits below VGEIN (among them SPV and SPVP) and above VGEIN are
unchanged, every other field of the vCPU is unchanged, and a second call
replaces the binding and the VGEIN value with the new ones. -/
theorem set_interrupt_file_frame (c : VmCpu) (f g : ImsicGuestId)
    (hf : f.raw_index < 64) (hg : g.raw_index < 64) :
    getBits (c.set_interrupt_file f).state.guest_regs.hstatus
      HSTATUS_VGEIN_SHIFT HSTATUS_VGEIN_WIDTH = f.raw_index ∧
    (c.set_interrupt_file f).state.guest_regs.hstatus % 2 ^ 12 =
      c.state.guest_regs.hstatus % 2 ^ 12 ∧
    (c.set_interrupt_file f).state.guest_regs.hstatus / 2 ^ 18 =
      c.state.guest_regs.hstatus / 2 ^ 18 ∧
    getBits (c.set_interrupt_file f).state.guest_regs.hstatus HSTATUS_SPV_SHIFT 1 =
      getBits c.state.guest_regs.hstatus HSTATUS_SPV_SHIFT 1 ∧
    getBits (c.set_interrupt_file f).state.guest_regs.hstatus HSTATUS_SPVP_SHIFT 1 =
      getBits c.state.guest_regs.hstatus HSTATUS_SPVP_SHIFT 1 ∧
    (c.set_interrupt_file f).interrupt_file = some f ∧
    (c.set_interrupt_file f).state.host_regs = c.state.host_regs ∧
    (c.set_interrupt_file f).state.guest_regs.gprs = c.state.guest_regs.gprs ∧
    (c.set_interrupt_file f).state.guest_regs.sstatus = c.state.guest_regs.sstatus ∧
    (c.set_interrupt_file f).state.guest_regs.scounteren =
      c.state.guest_regs.scounteren ∧
    (c.set_interrupt_file f).state.guest_regs.sepc = c.state.guest_regs.sepc ∧
    (c.set_interrupt_file f).state.guest_vcpu_csrs = c.state.guest_vcpu_csrs ∧
    (c.set_interrupt_file f).state.trap_csrs = c.state.trap_csrs ∧
    (c.set_interrupt_file f).guest_id = c.guest_id ∧
    getBits ((c.set_interrupt_file f).set_interrupt_file g).state.guest_regs.hstatus
      HSTATUS_VGEIN_SHIFT HSTATUS_VGEIN_WIDTH = g.raw_index ∧
    ((c.set_interrupt_file f).set_interrupt_file g).interrupt_file = some g := by
  refine ⟨?_, ?_, ?_, ?_, ?_, rfl, rfl, rfl, rfl, rfl, rfl, rfl, rfl, rfl, ?_, rfl⟩ <;>
    · simp only [VmCpu.set_interrupt_file, getBits, setBits, HSTATUS_VGEIN_SHIFT,
        HSTATUS_VGEIN_WIDTH, HSTATUS_SPV_SHIFT, HSTATUS_SPVP_SHIFT]
      norm_num
      omega

/-- C4: for every table of MAX_CPUS slots and every id below MAX_CPUS the
slot exists, and take_vcpu on it returns a Running handle and sets the status
to Running when the slot is Available (so a second take_vcpu then fails with
VmCpuRunning), fails with VmCpuRunning when it is Running, and fails with
VmCpuNotFound when it is NotPresent; for every id at or above MAX_CPUS it
fails with BadCpuId.  Error paths leave the table unchanged. -/
theorem take_vcpu_cases (vm : VmCpus) (id : Nat)
    (hlen : vm.inner.length = MAX_CPUS) :
    (id < MAX_CPUS → ∃ entry, vm.inner[id]? = some entry) ∧
    (∀ entry, vm.inner[id]? = some entry →
      (entry.status = .Available →
        ∃ vm2, vm.take_vcpu id = (.ok ⟨id⟩, vm2) ∧
          vm2.statusOf id = some .Running ∧
          vm2.take_vcpu id = (.error .VmCpuRunning, vm2)) ∧
      (entry.status = .Running → vm.take_vcpu id = (.error .VmCpuRunning, vm)) ∧
      (entry.status = .NotPresent → vm.take_vcpu id = (.error .VmCpuNotFound, vm))) ∧
    (MAX_CPUS ≤ id → vm.take_vcpu id = (.error .BadCpuId, vm)) := by
  refine ⟨?_, ?_, ?_⟩
  · intro hid
    have hl : id < vm.inner.length := by omega
    exact ⟨vm.inner[id], List.getElem?_eq_getElem hl⟩
  · intro entry hentry
    have hl : id < vm.inner.length := by
      rw [List.getElem?_eq_some] at hentry
      exact hentry.1
    obtain ⟨st, vc⟩ := entry
    refine ⟨?_, ?_, ?_⟩
    · intro hs
      dsimp only at hs
      subst hs
      have hset : (vm.inner.set id ⟨VmCpuStatus.Running, vc⟩)[id]? =
          some ⟨VmCpuStatus.Running, vc⟩ :=
        List.getElem?_set_eq_of_lt _ hl
      refine ⟨⟨vm.inner.set id ⟨VmCpuStatus.Running, vc⟩⟩, ?_, ?_, ?_⟩
      · unfold VmCpus.take_vcpu
        rw [hentry]
      · unfold VmCpus.statusOf
        dsimp only
        rw [hset]
        rfl
      · unfold VmCpus.take_vcpu
        dsimp only
        rw [hset]
    · intro hs
      dsimp only at hs
      subst hs
      unfold VmCpus.take_vcpu
      rw [hentry]
    · intro hs
      dsimp only at hs
      subst hs
      unfold VmCpus.take_vcpu
      rw [hentry]
  · intro hid
    have hnone : vm.inner[id]? = none := by
      rw [List.getElem?_eq_none]
      omega
    unfold VmCpus.take_vcpu
    rw [hnone]

/-- C5: on a freshly created table every id below MAX_CPUS is NotPresent; the
first add_vcpu moves it to Available and returns an Idle handle on the
freshly constructed vCPU; a second add_vcpu fails with VmCpuExists and leaves
the status unchanged; and for id at or above MAX_CPUS add_vcpu fails with
BadCpuId. -/
theorem add_vcpu_spec (owner : PageOwnerId) (pages : SequentialPages) (id : Nat)
    (hpages : VM_CPUS_PAGES ≤ pages.len) :
    (id < MAX_CPUS →
      ∃ vm, VmCpus.new owner pages = .ok vm ∧
        vm.statusOf id = some .NotPresent ∧
        ∃ vm2, vm.add_vcpu id = (.ok ⟨VmCpu.new owner⟩, vm2) ∧
          vm2.statusOf id = some .Available ∧
          vm2.add_vcpu id = (.error .VmCpuExists, vm2)) ∧
    (MAX_CPUS ≤ id → ∀ vm : VmCpus, VmCpus.new owner pages = .ok vm →
      vm.add_vcpu id = (.error .BadCpuId, vm)) := by
  have hnew : VmCpus.new owner pages =
      .ok ⟨List.replicate MAX_CPUS ⟨.NotPresent, VmCpu.new owner⟩⟩ := by
    unfold VmCpus.new
    rw [if_neg (by omega)]
  constructor
  · intro hid
    have hrep : (List.replicate MAX_CPUS
        (⟨.NotPresent, VmCpu.new owner⟩ : VmCpusInner))[id]? =
        some ⟨.NotPresent, VmCpu.new owner⟩ := by
      rw [List.getElem?_replicate, if_pos hid]
    have hl : id < (List.replicate MAX_CPUS
        (⟨.NotPresent, VmCpu.new owner⟩ : VmCpusInner)).length := by
      simpa using hid
    have hset : ((List.replicate MAX_CPUS
        (⟨.NotPresent, VmCpu.new owner⟩ : VmCpusInner)).set id
          ⟨.Available, VmCpu.new owner⟩)[id]? =
        some ⟨.Available, VmCpu.new owner⟩ :=
      List.getElem?_set_eq_of_lt _ hl
    refine ⟨_, hnew, ?_, ?_⟩
    · unfold VmCpus.statusOf
      dsimp only
      rw [hrep]
      rfl
    · refine ⟨⟨(List.replicate MAX_CPUS
        (⟨.NotPresent, VmCpu.new owner⟩ : VmCpusInner)).set id
          ⟨.Available, VmCpu.new owner⟩⟩, ?_, ?_, ?_⟩
      · unfold VmCpus.add_vcpu
        dsimp only
        rw [hrep]
        rfl
      · unfold VmCpus.statusOf
        dsimp only
        rw [hset]
        rfl
      · unfold VmCpus.add_vcpu
        dsimp only
        rw [hset]
        rfl
  · intro hid vm hvm
    rw [hnew] at hvm
    injection hvm with hvm
    have hnone : vm.inner[id]? = none := by
      rw [← hvm]
      rw [List.getElem?_eq_none]
      simpa using hid
    unfold VmCpus.add_vcpu
    rw [hnone]

/-- C6: dropping a Running handle on a slot in Running sets the slot to
Available, after which take_vcpu of the same id succeeds; if the status at
drop time is anything other than Running the drop panics (the consistency
assertion), modelled by `none`. -/
theorem running_drop_spec (vm : VmCpus) (h : RunningVmCpu) :
    (vm.statusOf h.id = some .Running →
      ∃ vm2, h.drop vm = some vm2 ∧
        vm2.statusOf h.id = some .Available ∧
        ∃ vm3, vm2.take_vcpu h.id = (.ok ⟨h.id⟩, vm3)) ∧
    (∀ s, vm.statusOf h.id = some s → s ≠ .Running → h.drop vm = none) := by
  constructor
  · intro hst
    unfold VmCpus.statusOf at hst
    rw [Option.map_eq_some'] at hst
    obtain ⟨entry, hentry, hs⟩ := hst
    have hl : h.id < vm.inner.length := by
      rw [List.getElem?_eq_some] at hentry
      exact hentry.1
    obtain ⟨st, vc⟩ := entry
    dsimp only at hs
    subst hs
    have hset : (vm.inner.set h.id ⟨VmCpuStatus.Available, vc⟩)[h.id]? =
        some ⟨VmCpuStatus.Available, vc⟩ :=
      List.getElem?_set_eq_of_lt _ hl
    refine ⟨⟨vm.inner.set h.id ⟨VmCpuStatus.Available, vc⟩⟩, ?_, ?_, ?_⟩
    · unfold RunningVmCpu.drop
      rw [hentry]
      rfl
    · unfold VmCpus.statusOf
      dsimp only
      rw [hset]
      rfl
    · refine ⟨⟨(vm.inner.set h.id ⟨VmCpuStatus.Available, vc⟩).set h.id
        ⟨VmCpuStatus.Running, vc⟩⟩, ?_⟩
      unfold VmCpus.take_vcpu
      dsimp only
      rw [hset]
  · intro s hst hne
    unfold VmCpus.statusOf at hst
    rw [Option.map_eq_some'] at hst
    obtain ⟨entry, hentry, hs⟩ := hst
    obtain ⟨st, vc⟩ := entry
    dsimp only at hs
    subst hs
    unfold RunningVmCpu.drop
    rw [hentry]
    cases st
    · rfl
    · rfl
    · exact absurd rfl hne

/-- C7: VmCpus::new fails with InsufficientVmCpuStorage exactly when fewer
than VM_CPUS_PAGES pages are supplied; otherwise it succeeds with all
MAX_CPUS slots NotPresent, each holding a vCPU constructed with the given
owner id, and get_vcpu(0) on the fresh table fails with VmCpuNotFound,
leaving the table unchanged. -/
theorem vmcpus_new_spec (owner : PageOwnerId) (pages : SequentialPages) :
    (pages.len < VM_CPUS_PAGES →
      VmCpus.new owner pages = .error .InsufficientVmCpuStorage) ∧
    (VM_CPUS_PAGES ≤ pages.len →
      ∃ vm, VmCpus.new owner pages = .ok vm ∧
        vm.inner.length = MAX_CPUS ∧
        (∀ i, i < MAX_CPUS →
          vm.inner[i]? = some ⟨.NotPresent, VmCpu.new owner⟩) ∧
        (vm.get_vcpu 0).1 = .error .VmCpuNotFound ∧
        (vm.get_vcpu 0).2 = vm) := by
  constructor
  · intro hlt
    unfold VmCpus.new
    rw [if_pos hlt]
  · intro hge
    have hrep0 : (List.replicate MAX_CPUS
        (⟨.NotPresent, VmCpu.new owner⟩ : VmCpusInner))[0]? =
        some ⟨.NotPresent, VmCpu.new owner⟩ := by
      rw [List.getElem?_replicate]
      rw [if_pos (by decide)]
    refine ⟨⟨List.replicate MAX_CPUS ⟨.NotPresent, VmCpu.new owner⟩⟩, ?_, by simp, ?_, ?_, ?_⟩
    · unfold VmCpus.new
      rw [if_neg (by omega)]
    · intro i hi
      rw [List.getElem?_replicate, if_pos hi]
    · unfold VmCpus.get_vcpu
      dsimp only
      rw [hrep0]
    · unfold VmCpus.get_vcpu
      dsimp only
      rw [hrep0]

/-- C8: for every table of MAX_CPUS slots and every id below MAX_CPUS the
slot exists, and get_vcpu returns an Idle handle on the slot's vCPU when the
status is Available, fails with VmCpuRunning when it is Running, fails with
VmCpuNotFound when it is NotPresent; and in every case (success or error,
any id) it returns the table state exactly as it found it. -/
theorem get_vcpu_cases (vm : VmCpus) (id : Nat)
    (hlen : vm.inner.length = MAX_CPUS) :
    (id < MAX_CPUS → ∃ entry, vm.inner[id]? = some entry) ∧
    (∀ entry, vm.inner[id]? = some entry →
      (entry.status = .Available → vm.get_vcpu id = (.ok ⟨entry.vcpu⟩, vm)) ∧
      (entry.status = .Running → vm.get_vcpu id = (.error .VmCpuRunning, vm)) ∧
      (entry.status = .NotPresent → vm.get_vcpu id = (.error .VmCpuNotFound, vm))) ∧
    (vm.get_vcpu id).2 = vm := by
  refine ⟨?_, ?_, ?_⟩
  · intro hid
    have hl : id < vm.inner.length := by omega
    exact ⟨vm.inner[id], List.getElem?_eq_getElem hl⟩
  · intro entry hentry
    obtain ⟨st, vc⟩ := entry
    refine ⟨?_, ?_, ?_⟩ <;>
      · intro hs
        dsimp only at hs
        subst hs
        unfold VmCpus.get_vcpu
        rw [hentry]
  · unfold VmCpus.get_vcpu
    rcases hx : vm.inner[id]? with - | ⟨st, vc⟩
    · rfl
    · cases st <;> rfl

/-! ## Concrete witnesses -/

/-- A concrete table fixture for the witnesses: every slot in status `s`,
owner id 7. -/
def vmTest (s : VmCpuStatus) : VmCpus :=
  ⟨List.replicate MAX_CPUS ⟨s, VmCpu.new 7⟩⟩

/-- Witness for C1 at scause 2 (an illegal-instruction exception: neither an
ECALL nor a guest page fault). -/
theorem run_to_exit_total_and_other_witness :
    VmCpu.run_to_exit (fun _ => none) (VmCpu.new 7) ⟨2, 0, 0, 0⟩ =
      some (.Other ⟨2, 0, 0, 0⟩,
        { VmCpu.new 7 with state.trap_csrs := ⟨2, 0, 0, 0⟩ }) :=
  (run_to_exit_total_and_other (fun _ => none) (VmCpu.new 7) ⟨2, 0, 0, 0⟩).2
    (by decide) (by decide) (by decide) (by decide)

/-- Witness for C2 at scause 10 (virtual-supervisor ECALL) with a decoder
returning nothing: sepc still advances by 4. -/
theorem run_to_exit_ecall_witness :
    VmCpu.run_to_exit (fun _ => none) (VmCpu.new 7) ⟨10, 0, 0, 0⟩ =
      some (.Ecall ((fun _ => none : SbiDecoder) (VmCpu.new 7).state.guest_regs.gprs),
        { VmCpu.new 7 with
            state.trap_csrs := ⟨10, 0, 0, 0⟩,
            state.guest_regs.sepc :=
              ((VmCpu.new 7).state.guest_regs.sepc + 4) % 2 ^ 64 }) :=
  (run_to_exit_ecall (fun _ => none : SbiDecoder) (VmCpu.new 7) ⟨10, 0, 0, 0⟩).1
    (by decide)

/-- Witness for C3, the spec's worked example: scause 21 (guest load page
fault), htval 0xABCDE, stval 0x3 reconstructs guest physical address
0x2AF37B, tagged with the owner id. -/
theorem run_to_exit_page_fault_witness :
    VmCpu.run_to_exit (fun _ => none) (VmCpu.new 7) ⟨21, 0x3, 0xABCDE, 0⟩ =
      some (.PageFault (RawAddr.guest 0x002AF37B 7),
        { VmCpu.new 7 with state.trap_csrs := ⟨21, 0x3, 0xABCDE, 0⟩ }) := by
  have h := run_to_exit_page_fault (fun _ => none : SbiDecoder) (VmCpu.new 7)
    ⟨21, 0x3, 0xABCDE, 0⟩ (Or.inr (Or.inl (by decide)))
  exact h.trans rfl

/-- Witness for C4 at id 3 on a table of each status, and at id 200 (past
MAX_CPUS). -/
theorem take_vcpu_cases_witness :
    (∃ vm2, (vmTest .Available).take_vcpu 3 = (.ok ⟨3⟩, vm2) ∧
      vm2.statusOf 3 = some .Running ∧
      vm2.take_vcpu 3 = (.error .VmCpuRunning, vm2)) ∧
    (vmTest .Running).take_vcpu 3 = (.error .VmCpuRunning, vmTest .Running) ∧
    (vmTest .NotPresent).take_vcpu 3 = (.error .VmCpuNotFound, vmTest .NotPresent) ∧
    (vmTest .Available).take_vcpu 200 = (.error .BadCpuId, vmTest .Available) := by
  have hlen : ∀ s, (vmTest s).inner.length = MAX_CPUS := by
    intro s
    simp [vmTest]
  have hentry : ∀ s, (vmTest s).inner[3]? = some ⟨s, VmCpu.new 7⟩ := by
    intro s
    show (List.replicate MAX_CPUS (⟨s, VmCpu.new 7⟩ : VmCpusInner))[3]? = _
    rw [List.getElem?_replicate, if_pos (by decide)]
  refine ⟨?_, ?_, ?_, ?_⟩
  · exact ((take_vcpu_cases (vmTest .Available) 3 (hlen _)).2.1 _ (hentry _)).1 rfl
  · exact ((take_vcpu_cases (vmTest .Running) 3 (hlen _)).2.1 _ (hentry _)).2.1 rfl
  · exact ((take_vcpu_cases (vmTest .NotPresent) 3 (hlen _)).2.1 _ (hentry _)).2.2 rfl
  · exact (take_vcpu_cases (vmTest .Available) 200 (hlen _)).2.2 (by decide)

/-- Witness for C5: a fresh table with exactly VM_CPUS_PAGES pages, slot 3
admitted once and then a second time. -/
theorem add_vcpu_spec_witness :
    ∃ vm, VmCpus.new 7 ⟨VM_CPUS_PAGES⟩ = .ok vm ∧
      vm.statusOf 3 = some .NotPresent ∧
      ∃ vm2, vm.add_vcpu 3 = (.ok ⟨VmCpu.new 7⟩, vm2) ∧
        vm2.statusOf 3 = some .Available ∧
        vm2.add_vcpu 3 = (.error .VmCpuExists, vm2) :=
  (add_vcpu_spec 7 ⟨VM_CPUS_PAGES⟩ 3 (by decide)).1 (by decide)

/-- Witness for C6: dropping a Running handle on a Running slot, and the
panic on an Available slot. -/
theorem running_drop_spec_witness :
    (∃ vm2, RunningVmCpu.drop ⟨3⟩ (vmTest .Running) = some vm2 ∧
      vm2.statusOf 3 = some .Available ∧
      ∃ vm3, vm2.take_vcpu 3 = (.ok ⟨3⟩, vm3)) ∧
    RunningVmCpu.drop ⟨3⟩ (vmTest .Available) = none := by
  have hst : ∀ s, (vmTest s).statusOf 3 = some s := by
    intro s
    show ((List.replicate MAX_CPUS (⟨s, VmCpu.new 7⟩ : VmCpusInner))[3]?).map _ = _
    rw [List.getElem?_replicate, if_pos (by decide)]
    rfl
  constructor
  · exact (running_drop_spec (vmTest .Running) ⟨3⟩).1 (hst _)
  · exact (running_drop_spec (vmTest .Available) ⟨3⟩).2 .Available (hst _) (by decide)

/-- Witness for C7: construction with one page too few fails, construction
with exactly VM_CPUS_PAGES pages succeeds. -/
theorem vmcpus_new_spec_witness :
    VmCpus.new 7 ⟨VM_CPUS_PAGES - 1⟩ = .error .InsufficientVmCpuStorage ∧
    ∃ vm, VmCpus.new 7 ⟨VM_CPUS_PAGES⟩ = .ok vm ∧
      vm.inner.length = MAX_CPUS ∧
      (∀ i, i < MAX_CPUS → vm.inner[i]? = some ⟨.NotPresent, VmCpu.new 7⟩) ∧
      (vm.get_vcpu 0).1 = .error .VmCpuNotFound ∧
      (vm.get_vcpu 0).2 = vm :=
  ⟨(vmcpus_new_spec 7 ⟨VM_CPUS_PAGES - 1⟩).1 (by decide),
   (vmcpus_new_spec 7 ⟨VM_CPUS_PAGES⟩).2 (by decide)⟩

/-- Witness for C8 at id 3 on a table of each status. -/
theorem get_vcpu_cases_witness :
    (vmTest .Available).get_vcpu 3 = (.ok ⟨VmCpu.new 7⟩, vmTest .Available) ∧
    (vmTest .Running).get_vcpu 3 = (.error .VmCpuRunning, vmTest .Running) ∧
    (vmTest .NotPresent).get_vcpu 3 = (.error .VmCpuNotFound, vmTest .NotPresent) := by
  have hlen : ∀ s, (vmTest s).inner.length = MAX_CPUS := by
    intro s
    simp [vmTest]
  have hentry : ∀ s, (vmTest s).inner[3]? = some ⟨s, VmCpu.new 7⟩ := by
    intro s
    show (List.replicate MAX_CPUS (⟨s, VmCpu.new 7⟩ : VmCpusInner))[3]? = _
    rw [List.getElem?_replicate, if_pos (by decide)]
  refine ⟨?_, ?_, ?_⟩
  · exact ((get_vcpu_cases (vmTest .Available) 3 (hlen _)).2.1 _ (hentry _)).1 rfl
  · exact ((get_vcpu_cases (vmTest .Running) 3 (hlen _)).2.1 _ (hentry _)).2.1 rfl
  · exact ((get_vcpu_cases (vmTest .NotPresent) 3 (hlen _)).2.1 _ (hentry _)).2.2 rfl

/-- Witness for C10: binding file 5 then file 9 on a fresh vCPU. -/
theorem set_interrupt_file_frame_witness :
    getBits ((VmCpu.new 7).set_interrupt_file ⟨5⟩).state.guest_regs.hstatus
      HSTATUS_VGEIN_SHIFT HSTATUS_VGEIN_WIDTH = 5 ∧
    ((VmCpu.new 7).set_interrupt_file ⟨5⟩).interrupt_file = some ⟨5⟩ ∧
    getBits (((VmCpu.new 7).set_interrupt_file ⟨5⟩).set_interrupt_file
      ⟨9⟩).state.guest_regs.hstatus HSTATUS_VGEIN_SHIFT HSTATUS_VGEIN_WIDTH = 9 ∧
    (((VmCpu.new 7).set_interrupt_file ⟨5⟩).set_interrupt_file ⟨9⟩).interrupt_file =
      some ⟨9⟩ := by
  obtain ⟨h1, -, -, -, -, h6, -, -, -, -, -, -, -, -, h15, h16⟩ :=
    set_interrupt_file_frame (VmCpu.new 7) ⟨5⟩ ⟨9⟩ (by decide) (by decide)
  exact ⟨h1, h6, h15, h16⟩

end Salus
